import Mathlib

/-!
Shallow embedding of `aiopg/utils.py` (the scoped resource acquisition
protocol: `_ContextManager` and its pool / transaction / pool-acquire /
pool-connection / pool-cursor specializations).

Each Python method is translated to a pure Lean function.  A method call
is modelled as a function from the object's field state (and fault flags
saying which collaborator step raises) to a triple
`(trace of collaborator calls, new field state, optionally raised error)`.
Python `None` references are `Option.none`; invoking a method or reading an
attribute on `None` raises an `AttributeError` (`Err.noneType`) and emits
no collaborator call.  A collaborator call that raises is modelled by the
corresponding fault flag: the call event is still emitted (the call was
made) and `Err.teardown` (or `Err.acquisitionError` for the acquisition
coroutine) propagates according to the source's `try`/`finally` structure.
-/

/-- Errors that Python control flow can surface in the embedded methods. -/
inductive Err where
  /-- `AttributeError`: attribute access / method call on `None`. -/
  | noneType
  /-- `AssertionError` from a failed `assert` statement. -/
  | assertionError
  /-- an exception raised by a collaborator teardown call
      (`close`, `release`, `commit`, `rollback`, `wait_closed`, `__aexit__`). -/
  | teardown
  /-- an exception raised while driving the acquisition coroutine. -/
  | acquisitionError
deriving DecidableEq, Repr

/-- Observable collaborator calls made by the context-manager methods.
Pools, connections, cursors and transactions are identified by `Nat` ids. -/
inductive Event where
  /-- `self._obj.close()` in the generic `_ContextManager.__aexit__`. -/
  | objClose
  /-- `self._obj.close()` on the pool in `_PoolContextManager.__aexit__`. -/
  | poolClose
  /-- `yield from self._obj.wait_closed()` in `_PoolContextManager.__aexit__`. -/
  | poolWaitClosed
  /-- `yield from self._obj.rollback()` in `_TransactionContextManager.__aexit__`. -/
  | txRollback
  /-- `yield from self._obj.commit()` in `_TransactionContextManager.__aexit__`. -/
  | txCommit
  /-- `self._pool.release(conn)` with the given connection argument
      (`none` when `release` is handed Python `None`). -/
  | poolRelease (conn : Option Nat)
  /-- `conn.__aexit__(...)` in `_PoolCursorContextManager.__aexit__`:
      per the spec it releases the wrapped connection back to the pool. -/
  | connRelease
  /-- the cursor-close step: `self._cur.close()` in the synchronous exit,
      or `cur.__aexit__(...)` in the asynchronous exit. -/
  | curClose
  /-- driving the acquisition coroutine
      (`yield from self._coro`, `self._pool.acquire()`, `self._conn_cur_co`). -/
  | acquire
  /-- `yield from self._conn.__aenter__()` in `_PoolCursorContextManager.__aenter__`. -/
  | connEnter
  /-- `yield from self._cur.__aenter__()` in `_PoolCursorContextManager.__aenter__`. -/
  | curEnter
  /-- `warnings.warn(..., DeprecationWarning)`. -/
  | warnDeprecation
deriving DecidableEq, Repr

/-- Is this event a release of the wrapped connection back to the pool? -/
def isRelease : Event → Bool
  | Event.poolRelease _ => true
  | Event.connRelease => true
  | _ => false

/-- Is this event the cursor-close step? -/
def isCurClose : Event → Bool
  | Event.curClose => true
  | _ => false

/-- Is this event a deprecation warning? -/
def isWarn : Event → Bool
  | Event.warnDeprecation => true
  | _ => false

/-- `releasesAfterClose seen tr = true` iff every release event in `tr` is
preceded (strictly, or by the accumulated `seen` flag) by a cursor-close
event. -/
def releasesAfterClose : Bool → List Event → Bool
  | _, [] => true
  | seen, e :: rest =>
      (!isRelease e || seen) && releasesAfterClose (seen || isCurClose e) rest

/-!
### `_ContextManager`

```python
@asyncio.coroutine
def __aenter__(self):
    self._obj = yield from self._coro
    return self._obj

@asyncio.coroutine
def __aexit__(self, exc_type, exc, tb):
    self._obj.close()
    self._obj = None

@asyncio.coroutine
def __iter__(self):
    resp = yield from self._coro
    return resp
```

The acquisition coroutine's outcome is the parameter
`co : Except Unit Nat` (`.ok v` = it produced resource `v`, `.error ()` =
it raised).  Driving it emits `Event.acquire`.
-/

/-- `_ContextManager.__aenter__`: awaits the coroutine, stores the result in
`self._obj`, returns it.  Result: `(trace, _obj after, returned value, error)`. -/
def ContextManager.aenter (co : Except Unit Nat) :
    List Event × Option Nat × Option Nat × Option Err :=
  match co with
  | Except.error _ => ([Event.acquire], none, none, some Err.acquisitionError)
  | Except.ok v => ([Event.acquire], some v, some v, none)

/-- `_ContextManager.__iter__` (also `__await__`): awaits the coroutine and
returns the result directly, without storing it in `self._obj` and without
any deprecation warning.  Result: `(trace, _obj after, returned value, error)`. -/
def ContextManager.iter (co : Except Unit Nat) :
    List Event × Option Nat × Option Nat × Option Err :=
  match co with
  | Except.error _ => ([Event.acquire], none, none, some Err.acquisitionError)
  | Except.ok v => ([Event.acquire], none, some v, none)

/-- `_ContextManager.__aexit__`: `self._obj.close()` then `self._obj = None`.
There is no `try`/`finally`: if `close` raises, `_obj` is not cleared;
if `_obj` is `None`, the method call on `None` raises `AttributeError`.
`closeRaises` injects a fault into the `close()` collaborator call.
Result: `(trace, _obj after, error)`. -/
def ContextManager.aexit (obj : Option Nat) (closeRaises : Bool) :
    List Event × Option Nat × Option Err :=
  match obj with
  | none => ([], none, some Err.noneType)
  | some o =>
      if closeRaises then ([Event.objClose], some o, some Err.teardown)
      else ([Event.objClose], none, none)

/-!
### `_PoolContextManager`

```python
@asyncio.coroutine
def __aexit__(self, exc_type, exc, tb):
    self._obj.close()
    yield from self._obj.wait_closed()
    self._obj = None
```
-/

/-- `_PoolContextManager.__aexit__`: `pool.close()`, then await
`pool.wait_closed()`, then clear `self._obj`.  No `try`/`finally`: a raise
at either step leaves `_obj` set and skips the remaining statements.
Result: `(trace, _obj after, error)`. -/
def PoolContextManager.aexit (obj : Option Nat) (closeRaises waitRaises : Bool) :
    List Event × Option Nat × Option Err :=
  match obj with
  | none => ([], none, some Err.noneType)
  | some p =>
      if closeRaises then ([Event.poolClose], some p, some Err.teardown)
      else if waitRaises then
        ([Event.poolClose, Event.poolWaitClosed], some p, some Err.teardown)
      else ([Event.poolClose, Event.poolWaitClosed], none, none)

/-!
### `_TransactionContextManager`

```python
@asyncio.coroutine
def __aexit__(self, exc_type, exc, tb):
    if exc_type:
        yield from self._obj.rollback()
    else:
        if self._obj.is_active:
            yield from self._obj.commit()
    self._obj = None
```
-/

/-- The transaction handle: only its `is_active` flag matters here. -/
structure Tx where
  is_active : Bool
deriving DecidableEq, Repr

/-- `_TransactionContextManager.__aexit__`.  `excType` is the truthiness of
`exc_type` (a failure exit).  `rollbackRaises` / `commitRaises` inject
faults into the respective collaborator calls; a raise skips
`self._obj = None` (no `try`/`finally`).  Result: `(trace, _obj after, error)`. -/
def TransactionContextManager.aexit (obj : Option Tx)
    (excType rollbackRaises commitRaises : Bool) :
    List Event × Option Tx × Option Err :=
  match obj with
  | none => ([], none, some Err.noneType)
  | some t =>
      if excType then
        if rollbackRaises then ([Event.txRollback], some t, some Err.teardown)
        else ([Event.txRollback], none, none)
      else
        if t.is_active then
          if commitRaises then ([Event.txCommit], some t, some Err.teardown)
          else ([Event.txCommit], none, none)
        else ([], none, none)

/-!
### `_PoolAcquireContextManager`

```python
@asyncio.coroutine
def __aenter__(self):
    self._conn = yield from self._coro
    return self._conn

@asyncio.coroutine
def __aexit__(self, exc_type, exc, tb):
    yield from self._pool.release(self._conn)
    self._pool = None
    self._conn = None
```
-/

/-- Field state of `_PoolAcquireContextManager`: `_pool` and `_conn`. -/
structure PoolAcqState where
  pool : Option Nat
  conn : Option Nat
deriving DecidableEq, Repr

/-- `_PoolAcquireContextManager.__aenter__`: awaits the coroutine and stores
the connection in `self._conn`; if the coroutine raises, `_conn` is left
unchanged.  Result: `(trace, state after, error)`. -/
def PoolAcquireContextManager.aenter (s : PoolAcqState) (co : Except Unit Nat) :
    List Event × PoolAcqState × Option Err :=
  match co with
  | Except.error _ => ([Event.acquire], s, some Err.acquisitionError)
  | Except.ok c => ([Event.acquire], { s with conn := some c }, none)

/-- `_PoolAcquireContextManager.__aexit__`: `pool.release(self._conn)` with
whatever `_conn` currently holds (possibly `None`), then clear both fields.
No `try`/`finally`: if `release` raises, the fields stay set; if `_pool` is
`None`, the method call on `None` raises before any collaborator call.
Result: `(trace, state after, error)`. -/
def PoolAcquireContextManager.aexit (s : PoolAcqState) (releaseRaises : Bool) :
    List Event × PoolAcqState × Option Err :=
  match s.pool with
  | none => ([], s, some Err.noneType)
  | some _ =>
      if releaseRaises then ([Event.poolRelease s.conn], s, some Err.teardown)
      else ([Event.poolRelease s.conn], { pool := none, conn := none }, none)

/-!
### `_PoolConnectionContextManager`

```python
def __enter__(self):
    assert self._conn
    return self._conn

@asyncio.coroutine
def __aenter__(self):
    assert not self._conn
    self._conn = yield from self._pool.acquire()
    return self._conn
```
-/

/-- Field state of `_PoolConnectionContextManager`: `_pool` and `_conn`. -/
structure PoolConnState where
  pool : Option Nat
  conn : Option Nat
deriving DecidableEq, Repr

/-- `_PoolConnectionContextManager.__enter__`: asserts a connection was
supplied at construction and returns it unchanged; performs no collaborator
call (the trace is always empty).
Result: `(trace, state after, returned value, error)`. -/
def PoolConnectionContextManager.enter (s : PoolConnState) :
    List Event × PoolConnState × Option Nat × Option Err :=
  match s.conn with
  | none => ([], s, none, some Err.assertionError)
  | some c => ([], s, some c, none)

/-- `_PoolConnectionContextManager.__aenter__`: asserts no connection is
present yet, then awaits `self._pool.acquire()` (outcome `acq`) and stores
the result.  If the assert fails, no acquisition is attempted.
Result: `(trace, state after, returned value, error)`. -/
def PoolConnectionContextManager.aenter (s : PoolConnState)
    (acq : Except Unit Nat) :
    List Event × PoolConnState × Option Nat × Option Err :=
  match s.conn with
  | some _ => ([], s, none, some Err.assertionError)
  | none =>
      match s.pool with
      | none => ([], s, none, some Err.noneType)
      | some _ =>
          match acq with
          | Except.error _ => ([Event.acquire], s, none, some Err.acquisitionError)
          | Except.ok c => ([Event.acquire], { s with conn := some c }, some c, none)

/-!
### `_PoolCursorContextManager`

```python
def __exit__(self, *args):
    try:
        self._cur.close()
        self._pool.release(self._conn)
    finally:
        self._conn = None
        self._cur = None

@asyncio.coroutine
def _init(self):
    assert not self._conn and not self._cur
    self._conn, self._cur = yield from self._conn_cur_co
    return self

def __iter__(self):
    warnings.warn(...)      # PY_35 holds
    return self._init()

def __await__(self):
    warnings.warn(...)      # PY_35 holds
    value = yield from self._init()
    return value

@asyncio.coroutine
def __aenter__(self):
    yield from self._init()
    yield from self._conn.__aenter__()
    yield from self._cur.__aenter__()
    return self._cur

@asyncio.coroutine
def __aexit__(self, exc_type, exc_val, exc_tb):
    conn = self._conn
    cur = self._cur
    self._pool = None  # releases cursor in conn __aexit__

    try:
        yield from cur.__aexit__(exc_type, exc_val, exc_tb)
        self._cur = None
    finally:
        yield from conn.__aexit__(exc_type, exc_val, exc_tb)
        self._conn = None
```
-/

/-- Field state of `_PoolCursorContextManager`: `_pool`, `_conn`, `_cur`
(the consumed-or-not acquisition coroutine `_conn_cur_co` is passed as a
parameter to the methods that drive it). -/
structure PoolCurState where
  pool : Option Nat
  conn : Option Nat
  cur : Option Nat
deriving DecidableEq, Repr

/-- `_PoolCursorContextManager._init`: asserts neither `_conn` nor `_cur` is
set, then awaits `self._conn_cur_co` (outcome `co`) and stores the
connection/cursor pair.  If the assert fails, the coroutine is not driven
(no acquisition).  Result: `(trace, state after, error)`. -/
def PoolCursorContextManager.init (s : PoolCurState)
    (co : Except Unit (Nat × Nat)) :
    List Event × PoolCurState × Option Err :=
  if s.conn.isSome || s.cur.isSome then ([], s, some Err.assertionError)
  else
    match co with
    | Except.error _ => ([Event.acquire], s, some Err.acquisitionError)
    | Except.ok (c, u) =>
        ([Event.acquire], { s with conn := some c, cur := some u }, none)

/-- `_PoolCursorContextManager.__iter__`: emits a `DeprecationWarning`
(`PY_35` holds) and then behaves as `_init` (it returns `self._init()`,
which the caller's `yield from` drives).  Result: `(trace, state after, error)`. -/
def PoolCursorContextManager.iter (s : PoolCurState)
    (co : Except Unit (Nat × Nat)) :
    List Event × PoolCurState × Option Err :=
  match PoolCursorContextManager.init s co with
  | (tr, s2, e) => (Event.warnDeprecation :: tr, s2, e)

/-- `_PoolCursorContextManager.__await__`: emits a `DeprecationWarning`
(`PY_35` holds) and drives `self._init()` to completion — the same
behaviour as `__iter__`.  Result: `(trace, state after, error)`. -/
def PoolCursorContextManager.awaitDunder (s : PoolCurState)
    (co : Except Unit (Nat × Nat)) :
    List Event × PoolCurState × Option Err :=
  match PoolCursorContextManager.init s co with
  | (tr, s2, e) => (Event.warnDeprecation :: tr, s2, e)

/-- `_PoolCursorContextManager.__aenter__`: drives `self._init()`, then
enters the connection's and the cursor's own async contexts, and returns
`self._cur`.  If `_init` raises (failed assert or failed acquisition), the
remaining steps do not run.
Result: `(trace, state after, returned value, error)`. -/
def PoolCursorContextManager.aenter (s : PoolCurState)
    (co : Except Unit (Nat × Nat)) :
    List Event × PoolCurState × Option Nat × Option Err :=
  match PoolCursorContextManager.init s co with
  | (tr, s2, some e) => (tr, s2, none, some e)
  | (tr, s2, none) =>
      (tr ++ [Event.connEnter, Event.curEnter], s2, s2.cur, none)

/-- `_PoolCursorContextManager.__exit__` (synchronous exit):
`self._cur.close()` and `self._pool.release(self._conn)` inside one `try`
whose `finally` clears `_conn` and `_cur` (but not `_pool`).  If the
cursor-close step raises (`closeRaises`, or `_cur` is `None`), the release
statement is skipped, the fields are still cleared by the `finally`, and
the error propagates.  Result: `(trace, state after, error)`. -/
def PoolCursorContextManager.exitSync (s : PoolCurState)
    (closeRaises releaseRaises : Bool) :
    List Event × PoolCurState × Option Err :=
  match s.cur with
  | none => ([], { s with conn := none, cur := none }, some Err.noneType)
  | some _ =>
      if closeRaises then
        ([Event.curClose], { s with conn := none, cur := none }, some Err.teardown)
      else
        match s.pool with
        | none =>
            ([Event.curClose], { s with conn := none, cur := none },
              some Err.noneType)
        | some _ =>
            if releaseRaises then
              ([Event.curClose, Event.poolRelease s.conn],
                { s with conn := none, cur := none }, some Err.teardown)
            else
              ([Event.curClose, Event.poolRelease s.conn],
                { s with conn := none, cur := none }, none)

/-- `_PoolCursorContextManager.__aexit__` (asynchronous exit).  Reads
`_conn` and `_cur` into locals, sets `_pool` to `None`, then runs
`cur.__aexit__` in a `try` whose `finally` runs `conn.__aexit__`; each
field is cleared only after its own step succeeds.

Modelled from the spec: the bodies of `cur.__aexit__` and `conn.__aexit__`
are repository code outside `utils.py`; per the spec (§4.3, §2) the
cursor's `__aexit__` performs the cursor-close step (`Event.curClose`) and
the connection's `__aexit__` releases the wrapped connection back to the
pool (`Event.connRelease`).  `curExitRaises` / `connExitRaises` inject
faults into those steps; a `None` local raises `AttributeError` in place of
the step, and an exception raised in the `finally` replaces the pending
one (Python semantics).  Result: `(trace, state after, error)`. -/
def PoolCursorContextManager.aexit (s : PoolCurState)
    (curExitRaises connExitRaises : Bool) :
    List Event × PoolCurState × Option Err :=
  match s.cur with
  | none =>
      match s.conn with
      | none => ([], { s with pool := none }, some Err.noneType)
      | some _ =>
          if connExitRaises then
            ([Event.connRelease], { s with pool := none }, some Err.teardown)
          else
            ([Event.connRelease], { s with pool := none, conn := none },
              some Err.noneType)
  | some _ =>
      if curExitRaises then
        match s.conn with
        | none => ([Event.curClose], { s with pool := none }, some Err.noneType)
        | some _ =>
            if connExitRaises then
              ([Event.curClose, Event.connRelease], { s with pool := none },
                some Err.teardown)
            else
              ([Event.curClose, Event.connRelease],
                { s with pool := none, conn := none }, some Err.teardown)
      else
        match s.conn with
        | none =>
            ([Event.curClose], { s with pool := none, cur := none },
              some Err.noneType)
        | some _ =>
            if connExitRaises then
              ([Event.curClose, Event.connRelease],
                { s with pool := none, cur := none }, some Err.teardown)
            else
              ([Event.curClose, Event.connRelease],
                { s with pool := none, conn := none, cur := none }, none)

/-!
## Claims
-/

/-- Claim C1: for every exit of a CursorScope — synchronous `__exit__` or
asynchronous `__aexit__`, on normal or failure exit, with or without faults
in the teardown steps — every release of the wrapped connection back to the
pool in the trace is strictly preceded by the cursor-close invocation. -/
theorem cursor_close_before_release (s : PoolCurState)
    (closeRaises releaseRaises curExitRaises connExitRaises : Bool)
    (h : s.cur.isSome) :
    releasesAfterClose false
      (PoolCursorContextManager.exitSync s closeRaises releaseRaises).1 = true ∧
    releasesAfterClose false
      (PoolCursorContextManager.aexit s curExitRaises connExitRaises).1 = true := by
  rcases s with ⟨p, c, u⟩
  cases u with
  | none => simp at h
  | some uv =>
    cases p <;> cases c <;> cases closeRaises <;> cases releaseRaises <;>
      cases curExitRaises <;> cases connExitRaises <;> exact ⟨rfl, rfl⟩

/-- Witness for C1 at a concrete fully-entered state. -/
theorem cursor_close_before_release_witness :
    ((⟨some 0, some 1, some 2⟩ : PoolCurState).cur.isSome = true) ∧
    (releasesAfterClose false
      (PoolCursorContextManager.exitSync ⟨some 0, some 1, some 2⟩ false false).1
        = true ∧
     releasesAfterClose false
      (PoolCursorContextManager.aexit ⟨some 0, some 1, some 2⟩ false false).1
        = true) :=
  ⟨rfl, cursor_close_before_release ⟨some 0, some 1, some 2⟩ false false false
    false rfl⟩

/-- Claim C2 counterexample: with an `Active` handle and a teardown fault,
the generic `__aexit__` and the transaction `__aexit__` both leave the
handle set instead of clearing it. -/
theorem handle_not_cleared_on_teardown_fault :
    (ContextManager.aexit (some 0) true).2.1 = some 0 ∧
    (TransactionContextManager.aexit (some ⟨true⟩) false false true).2.1 =
      some ⟨true⟩ := ⟨rfl, rfl⟩

/-- Claim C2 amended: the generic scope's `__aexit__` and the transaction
scope's `__aexit__` clear the handle only when the teardown step succeeds;
when the teardown step (close, commit, or rollback) raises, the error
propagates and the handle is left set, still pointing at the object. -/
theorem handle_cleared_only_on_success (o : Nat) (t : Tx) :
    ContextManager.aexit (some o) false = ([Event.objClose], none, none) ∧
    ContextManager.aexit (some o) true =
      ([Event.objClose], some o, some Err.teardown) ∧
    (∀ cR, TransactionContextManager.aexit (some t) true false cR =
      ([Event.txRollback], none, none)) ∧
    (∀ cR, TransactionContextManager.aexit (some t) true true cR =
      ([Event.txRollback], some t, some Err.teardown)) ∧
    (∀ rR, TransactionContextManager.aexit (some ⟨true⟩) false rR false =
      ([Event.txCommit], none, none)) ∧
    (∀ rR, TransactionContextManager.aexit (some ⟨true⟩) false rR true =
      ([Event.txCommit], some ⟨true⟩, some Err.teardown)) :=
  ⟨rfl, rfl, fun _ => rfl, fun _ => rfl, fun _ => rfl, fun _ => rfl⟩

/-- Claim C3 counterexample: on the synchronous `__exit__` path, when the
cursor-close step raises, no release of the connection appears in the
trace — the connection is not returned to the pool before the error
propagates. -/
theorem sync_exit_skips_release_on_close_fault :
    (PoolCursorContextManager.exitSync ⟨some 0, some 1, some 2⟩ true false).1 =
      [Event.curClose] ∧
    ((PoolCursorContextManager.exitSync ⟨some 0, some 1, some 2⟩
      true false).1.any isRelease) = false := ⟨rfl, rfl⟩

/-- Claim C3 amended: when the cursor-close step raises, the
connection-release step still runs before the error propagates on the
asynchronous `__aexit__` path (it sits in the `finally` block); on the
synchronous `__exit__` path the release is skipped, though the `finally`
still clears the `_conn` and `_cur` fields. -/
theorem release_on_close_fault (s : PoolCurState) (c u : Nat)
    (hc : s.conn = some c) (hu : s.cur = some u) (connExitRaises : Bool) :
    ((PoolCursorContextManager.aexit s true connExitRaises).1 =
      [Event.curClose, Event.connRelease]) ∧
    ((PoolCursorContextManager.aexit s true connExitRaises).2.2 =
      some Err.teardown) ∧
    ((PoolCursorContextManager.exitSync s true false).1 = [Event.curClose]) ∧
    ((PoolCursorContextManager.exitSync s true false).2.1 =
      { pool := s.pool, conn := none, cur := none }) := by
  rcases s with ⟨p, cf, uf⟩
  cases hc; cases hu
  cases connExitRaises <;> exact ⟨rfl, rfl, rfl, rfl⟩

/-- Witness for the amended C3 at a concrete fully-entered state. -/
theorem release_on_close_fault_witness :
    ((⟨some 0, some 1, some 2⟩ : PoolCurState).conn = some 1 ∧
     (⟨some 0, some 1, some 2⟩ : PoolCurState).cur = some 2) ∧
    (((PoolCursorContextManager.aexit ⟨some 0, some 1, some 2⟩ true false).1 =
       [Event.curClose, Event.connRelease]) ∧
     ((PoolCursorContextManager.aexit ⟨some 0, some 1, some 2⟩ true false).2.2 =
       some Err.teardown) ∧
     ((PoolCursorContextManager.exitSync ⟨some 0, some 1, some 2⟩ true false).1 =
       [Event.curClose]) ∧
     ((PoolCursorContextManager.exitSync ⟨some 0, some 1, some 2⟩
        true false).2.1 = { pool := some 0, conn := none, cur := none })) :=
  ⟨⟨rfl, rfl⟩,
    release_on_close_fault ⟨some 0, some 1, some 2⟩ 1 2 rfl rfl false⟩

/-- Claim C4 counterexample: after one completed, fault-free `__aexit__` of
a pool-acquire scope, a second `__aexit__` on the resulting state raises an
`AttributeError` (a method call on the cleared `None` pool reference)
instead of being an error-free no-op. -/
theorem second_exit_raises :
    (PoolAcquireContextManager.aexit ⟨some 0, some 1⟩ false).2.2 = none ∧
    (PoolAcquireContextManager.aexit
      (PoolAcquireContextManager.aexit ⟨some 0, some 1⟩ false).2.1 false).2.2 =
      some Err.noneType := ⟨rfl, rfl⟩

/-- Claim C4 amended: a second `exitScope` after a completed one performs
no second release/close call to the collaborators (its trace is empty, so
no double release reaches the pool), but it is not an error-free no-op: it
raises an `AttributeError` from invoking a method on the cleared `None`
reference, for the generic scope and the pool-acquire scope alike. -/
theorem second_exit_no_double_release (o p c : Nat) (r r2 : Bool) :
    ((ContextManager.aexit (ContextManager.aexit (some o) false).2.1 r).1
      = []) ∧
    ((ContextManager.aexit (ContextManager.aexit (some o) false).2.1 r).2.2 =
      some Err.noneType) ∧
    ((PoolAcquireContextManager.aexit
        (PoolAcquireContextManager.aexit ⟨some p, some c⟩ false).2.1 r2).1
      = []) ∧
    ((PoolAcquireContextManager.aexit
        (PoolAcquireContextManager.aexit ⟨some p, some c⟩ false).2.1 r2).2.2 =
      some Err.noneType) := ⟨rfl, rfl, rfl, rfl⟩

/-- Claim C5: on transaction-scope exit with an `Active` handle: a failure
signal calls `rollback()` and never `commit()`, regardless of `is_active`;
no failure signal with `is_active = true` calls `commit()` and not
`rollback()`; no failure signal with `is_active = false` calls neither and
only clears the handle. -/
theorem tx_exit_commit_rollback (t : Tx) (rollbackRaises commitRaises : Bool) :
    ((TransactionContextManager.aexit (some t) true rollbackRaises
        commitRaises).1 = [Event.txRollback]) ∧
    ((TransactionContextManager.aexit (some ⟨true⟩) false rollbackRaises
        commitRaises).1 = [Event.txCommit]) ∧
    (TransactionContextManager.aexit (some ⟨false⟩) false rollbackRaises
        commitRaises = ([], none, none)) := by
  rcases t with ⟨a⟩
  cases a <;> cases rollbackRaises <;> cases commitRaises <;>
    exact ⟨rfl, rfl, rfl⟩

/-- Claim C6 counterexample: when acquisition failed (`_conn` stays `None`
while `_pool` is still set), the pool-acquire scope's `__aexit__` still
performs a collaborator call: `pool.release(None)`. -/
theorem failed_acquisition_exit_calls_release :
    (PoolAcquireContextManager.aenter ⟨some 0, none⟩ (Except.error ())).2.1 =
      (⟨some 0, none⟩ : PoolAcqState) ∧
    (PoolAcquireContextManager.aexit ⟨some 0, none⟩ false).1 =
      [Event.poolRelease none] := ⟨rfl, rfl⟩

/-- Claim C6 amended: after a failed acquisition (the coroutine raised, so
no connection was stored), a subsequent `exitScope` is not a silent no-op:
the pool-acquire scope's `__aexit__` calls `pool.release` with the `None`
connection, and the generic scope's `__aexit__` performs zero collaborator
calls but raises an `AttributeError` from `None.close()`. -/
theorem failed_acquisition_exit (p : Nat) (r : Bool) :
    ((PoolAcquireContextManager.aenter ⟨some p, none⟩ (Except.error ())).2 =
      ((⟨some p, none⟩ : PoolAcqState), some Err.acquisitionError)) ∧
    ((PoolAcquireContextManager.aexit ⟨some p, none⟩ r).1 =
      [Event.poolRelease none]) ∧
    ((ContextManager.aexit none r).1 = []) ∧
    ((ContextManager.aexit none r).2.2 = some Err.noneType) := by
  cases r <;> exact ⟨rfl, rfl, rfl, rfl⟩

/-- Claim C7: on a scope whose acquisition was already consumed, the other
acquisition entry point fails fast with an `AssertionError` and performs no
second acquisition: `__aenter__` of the pool-connection scope asserts when
a connection is already present, and `_init` of the pool-cursor scope
(reached from `__iter__`, `__await__` and `__aenter__` alike) asserts when
a connection or cursor is already stored; in each case the trace is empty
and the state unchanged. -/
theorem consumed_scope_asserts (s : PoolConnState) (c : Nat)
    (hs : s.conn = some c) (t : PoolCurState)
    (ht : t.conn.isSome ∨ t.cur.isSome)
    (acq : Except Unit Nat) (co : Except Unit (Nat × Nat)) :
    (PoolConnectionContextManager.aenter s acq =
      ([], s, none, some Err.assertionError)) ∧
    (PoolCursorContextManager.init t co = ([], t, some Err.assertionError)) := by
  constructor
  · rcases s with ⟨p, cf⟩
    cases hs
    rfl
  · have h : (t.conn.isSome || t.cur.isSome) = true := by
      rcases ht with h | h <;> simp [h]
    simp [PoolCursorContextManager.init, h]

/-- Witness for C7 at concrete already-consumed states. -/
theorem consumed_scope_asserts_witness :
    ((⟨some 0, some 1⟩ : PoolConnState).conn = some 1 ∧
     ((⟨some 0, some 2, some 3⟩ : PoolCurState).conn.isSome ∨
      (⟨some 0, some 2, some 3⟩ : PoolCurState).cur.isSome)) ∧
    ((PoolConnectionContextManager.aenter ⟨some 0, some 1⟩ (Except.ok 9) =
      ([], ⟨some 0, some 1⟩, none, some Err.assertionError)) ∧
     (PoolCursorContextManager.init ⟨some 0, some 2, some 3⟩
        (Except.ok (4, 5)) =
      ([], ⟨some 0, some 2, some 3⟩, some Err.assertionError))) :=
  ⟨⟨rfl, Or.inl rfl⟩,
    consumed_scope_asserts ⟨some 0, some 1⟩ 1 rfl ⟨some 0, some 2, some 3⟩
      (Or.inl rfl) (Except.ok 9) (Except.ok (4, 5))⟩

/-- Claim C8: `_PoolContextManager.__aexit__` performs exactly
`pool.close()` then awaits `pool.wait_closed()`, in that order, and clears
the stored handle only after both: with no faults the trace is exactly
`[poolClose, poolWaitClosed]` and the handle ends cleared; a fault at
either step leaves the handle set, and a fault at `close` prevents
`wait_closed` from running. -/
theorem pool_lifetime_exit (p : Nat) :
    (PoolContextManager.aexit (some p) false false =
      ([Event.poolClose, Event.poolWaitClosed], none, none)) ∧
    (∀ w, PoolContextManager.aexit (some p) true w =
      ([Event.poolClose], some p, some Err.teardown)) ∧
    (PoolContextManager.aexit (some p) false true =
      ([Event.poolClose, Event.poolWaitClosed], some p, some Err.teardown)) :=
  ⟨rfl, fun _ => rfl, rfl⟩

/-- Claim C9 counterexample: the generic scope's deprecated lazy entry
(`_ContextManager.__iter__`) emits no deprecation warning, and unlike
`__aenter__` it does not store the acquired resource in the handle, so the
acquired resource state differs between the two paths. -/
theorem generic_lazy_path_differs :
    ((ContextManager.iter (Except.ok 5)).1.any isWarn = false) ∧
    ((ContextManager.iter (Except.ok 5)).2.1 = none) ∧
    ((ContextManager.aenter (Except.ok 5)).2.1 = some 5) := ⟨rfl, rfl, rfl⟩

/-- Claim C9 amended: the cursor scope's deprecated lazy entries
(`__iter__` and `__await__`) emit a deprecation warning and funnel into the
same `_init` acquisition logic as the async enter, producing the same state
and error; the generic scope's lazy entry emits no warning and returns the
acquired resource without storing it in the handle — only the returned
value matches the `__aenter__` path. -/
theorem lazy_path_behaviour (s : PoolCurState) (co : Except Unit (Nat × Nat))
    (g : Except Unit Nat) :
    (PoolCursorContextManager.iter s co =
      (Event.warnDeprecation :: (PoolCursorContextManager.init s co).1,
        (PoolCursorContextManager.init s co).2.1,
        (PoolCursorContextManager.init s co).2.2)) ∧
    (PoolCursorContextManager.awaitDunder s co =
      PoolCursorContextManager.iter s co) ∧
    ((ContextManager.iter g).2.2.1 = (ContextManager.aenter g).2.2.1) ∧
    ((ContextManager.iter g).1.any isWarn = false) ∧
    ((ContextManager.iter g).2.1 = none) := by
  constructor
  · rcases hi : PoolCursorContextManager.init s co with ⟨tr, s2, e⟩
    simp [PoolCursorContextManager.iter, hi]
  · refine ⟨rfl, ?_, ?_, ?_⟩ <;> cases g <;> rfl

/-- Claim C10: the pool-connection scope's synchronous `__enter__` never
acquires — it asserts a connection was supplied at construction and returns
it unchanged with an empty trace, failing the assert when none is present —
while the asynchronous `__aenter__` asserts no connection is present yet
and performs the acquisition itself, storing and returning the acquired
connection. -/
theorem pool_conn_enter_paths (p c x : Nat) (acq : Except Unit Nat) :
    (PoolConnectionContextManager.enter ⟨some p, some c⟩ =
      ([], ⟨some p, some c⟩, some c, none)) ∧
    (PoolConnectionContextManager.enter ⟨some p, none⟩ =
      ([], ⟨some p, none⟩, none, some Err.assertionError)) ∧
    (PoolConnectionContextManager.aenter ⟨some p, none⟩ (Except.ok x) =
      ([Event.acquire], ⟨some p, some x⟩, some x, none)) ∧
    (PoolConnectionContextManager.aenter ⟨some p, some c⟩ acq =
      ([], ⟨some p, some c⟩, none, some Err.assertionError)) :=
  ⟨rfl, rfl, rfl, rfl⟩
